import Mathlib

set_option maxHeartbeats 1000000

/-! Shallow embedding of `src/mcp/core.py` (class `MCP`): JSON-like values,
tool registry, schema inference, and the JSON-RPC dispatcher `MCP.run`. -/

/-- A JSON-like Python value, as produced by `json.loads` or passed directly
to `MCP.run`. Objects are insertion-ordered key/value lists (Python dicts). -/
inductive JValue where
  | null
  | bool (b : Bool)
  | int (n : Int)
  | str (s : String)
  | arr (elems : List JValue)
  | obj (fields : List (String × JValue))
deriving Repr

mutual

/-- Structural equality of JSON-like values (Python `==` on parsed JSON). -/
def JValue.beq : JValue → JValue → Bool
  | .null, .null => true
  | .bool a, .bool b => a == b
  | .int a, .int b => a == b
  | .str a, .str b => a == b
  | .arr a, .arr b => JValue.beqList a b
  | .obj a, .obj b => JValue.beqFields a b
  | _, _ => false

def JValue.beqList : List JValue → List JValue → Bool
  | [], [] => true
  | a :: as, b :: bs => JValue.beq a b && JValue.beqList as bs
  | _, _ => false

def JValue.beqFields : List (String × JValue) → List (String × JValue) → Bool
  | [], [] => true
  | (k1, v1) :: as, (k2, v2) :: bs => k1 == k2 && JValue.beq v1 v2 && JValue.beqFields as bs
  | _, _ => false

end

instance : BEq JValue := ⟨JValue.beq⟩

mutual

theorem JValue.eq_of_beq : ∀ {a b : JValue}, JValue.beq a b = true → a = b
  | .null, .null, _ => rfl
  | .bool _, .bool _, h => by
      simp only [JValue.beq, beq_iff_eq] at h; rw [h]
  | .int _, .int _, h => by
      simp only [JValue.beq, beq_iff_eq] at h; rw [h]
  | .str _, .str _, h => by
      simp only [JValue.beq, beq_iff_eq] at h; rw [h]
  | .arr a, .arr b, h => by
      rw [JValue.eqList_of_beq (a := a) (b := b) h]
  | .obj a, .obj b, h => by
      rw [JValue.eqFields_of_beq (a := a) (b := b) h]

theorem JValue.eqList_of_beq : ∀ {a b : List JValue}, JValue.beqList a b = true → a = b
  | [], [], _ => rfl
  | a :: as, b :: bs, h => by
      simp only [JValue.beqList, Bool.and_eq_true] at h
      rw [JValue.eq_of_beq h.1, JValue.eqList_of_beq h.2]

theorem JValue.eqFields_of_beq :
    ∀ {a b : List (String × JValue)}, JValue.beqFields a b = true → a = b
  | [], [], _ => rfl
  | (k1, v1) :: as, (k2, v2) :: bs, h => by
      simp only [JValue.beqFields, Bool.and_eq_true, beq_iff_eq] at h
      rw [h.1.1, JValue.eq_of_beq h.1.2, JValue.eqFields_of_beq h.2]

end

mutual

theorem JValue.beq_refl : ∀ a : JValue, JValue.beq a a = true
  | .null => rfl
  | .bool _ => by simp [JValue.beq]
  | .int _ => by simp [JValue.beq]
  | .str _ => by simp [JValue.beq]
  | .arr a => by simpa [JValue.beq] using JValue.beqList_refl a
  | .obj a => by simpa [JValue.beq] using JValue.beqFields_refl a

theorem JValue.beqList_refl : ∀ a : List JValue, JValue.beqList a a = true
  | [] => rfl
  | a :: as => by
      simp only [JValue.beqList, Bool.and_eq_true]
      exact ⟨JValue.beq_refl a, JValue.beqList_refl as⟩

theorem JValue.beqFields_refl : ∀ a : List (String × JValue), JValue.beqFields a a = true
  | [] => rfl
  | (k, v) :: as => by
      simp only [JValue.beqFields, Bool.and_eq_true, beq_iff_eq]
      exact ⟨⟨trivial, JValue.beq_refl v⟩, JValue.beqFields_refl as⟩

end

instance : DecidableEq JValue := fun a b =>
  if h : JValue.beq a b = true then .isTrue (JValue.eq_of_beq h)
  else .isFalse (fun he => h (he ▸ JValue.beq_refl a))

instance : LawfulBEq JValue where
  eq_of_beq := JValue.eq_of_beq
  rfl := JValue.beq_refl _

/-- Python `d.get(k)`: first value stored under `k`, `None` when absent. -/
def pyDictGet (kvs : List (String × JValue)) (k : String) : JValue :=
  match kvs.find? (fun p => p.1 == k) with
  | some p => p.2
  | none => JValue.null

/-- Python `d.get(k, default)`: stored value (even if `None`), else the default. -/
def pyDictGetD (kvs : List (String × JValue)) (k : String) (d : JValue) : JValue :=
  match kvs.find? (fun p => p.1 == k) with
  | some p => p.2
  | none => d

/-- Key presence/value as an `Option`, to observe which keys a response carries. -/
def lookupKey (kvs : List (String × JValue)) (k : String) : Option JValue :=
  (kvs.find? (fun p => p.1 == k)).map (fun p => p.2)

/-- Python truthiness of a JSON-like value (`if not x:` tests). -/
def JValue.truthy : JValue → Bool
  | .null => false
  | .bool b => b
  | .int n => n != 0
  | .str s => s ≠ ""
  | .arr xs => !xs.isEmpty
  | .obj kvs => !kvs.isEmpty

/-- Python `type(x).__name__` for the embedded values. -/
def pyTypeName : JValue → String
  | .null => "NoneType"
  | .bool _ => "bool"
  | .int _ => "int"
  | .str _ => "str"
  | .arr _ => "list"
  | .obj _ => "dict"

example : (JValue.str "").truthy = false := by decide
example : pyDictGet [("id", JValue.int 3)] "id" = JValue.int 3 := by decide

/-- Boolean list-prefix test over characters. -/
def charsIsPref : List Char → List Char → Bool
  | [], _ => true
  | _ :: _, [] => false
  | a :: as, b :: bs => a == b && charsIsPref as bs

/-- Boolean list-infix test over characters. -/
def charsContains (n : List Char) : List Char → Bool
  | [] => charsIsPref n []
  | b :: bs => charsIsPref n (b :: bs) || charsContains n bs

/-- Python `needle in hay` on strings (substring containment). -/
def containsSub (needle hay : String) : Bool :=
  charsContains needle.toList hay.toList

/-- ASCII lowercase of one character (model of Python `str.lower` per char). -/
def lowerChar (c : Char) : Char :=
  if 65 ≤ c.toNat ∧ c.toNat ≤ 90 then Char.ofNat (c.toNat + 32) else c

/-- Python `s.lower()` (ASCII model; annotations in the source are ASCII). -/
def strToLower (s : String) : String := String.mk (s.toList.map lowerChar)

example : strToLower "Int" = "int" := by decide

example : containsSub "int" "list[int]" = true := by decide
example : containsSub "float" "int" = false := by decide

mutual

/-- Python `repr` of a JSON-like value (as used inside `str` of containers). -/
def pyRepr : JValue → String
  | .null => "None"
  | .bool b => if b then "True" else "False"
  | .int n => toString n
  | .str s => "\x27" ++ s ++ "\x27"
  | .arr xs => "[" ++ pyReprList xs ++ "]"
  | .obj kvs => "\x7b" ++ pyReprFields kvs ++ "\x7d"

def pyReprList : List JValue → String
  | [] => ""
  | [x] => pyRepr x
  | x :: y :: xs => pyRepr x ++ ", " ++ pyReprList (y :: xs)

def pyReprFields : List (String × JValue) → String
  | [] => ""
  | [(k, v)] => "\x27" ++ k ++ "\x27: " ++ pyRepr v
  | (k, v) :: p :: kvs => "\x27" ++ k ++ "\x27: " ++ pyRepr v ++ ", " ++ pyReprFields (p :: kvs)

end

/-- Python `str(x)`: identity on strings, `repr`-rendered containers otherwise. -/
def pyStr : JValue → String
  | .str s => s
  | .arr xs => "[" ++ pyReprList xs ++ "]"
  | .obj kvs => "\x7b" ++ pyReprFields kvs ++ "\x7d"
  | v => pyRepr v

example : pyStr (JValue.int 35) = "35" := by decide

/-! ## Schema Inference Engine (`MCP._infer_param_type_from_annotation`) -/

/-- The Python runtime types appearing in the decorator's `type_mapping` table. -/
inductive PyType where
  | str | int | float | bool | list | dict
deriving DecidableEq, Repr

/-- The fixed `type_mapping` table of the source. -/
def typeMapping : PyType → String
  | .str => "string"
  | .int => "integer"
  | .float => "number"
  | .bool => "boolean"
  | .list => "array"
  | .dict => "object"

/-- A Python parameter annotation as seen by `inspect`: absent (or `None`),
a plain type (in or out of the mapping table), a `typing` generic whose
`__origin__` may be a mapped type, or a textual forward reference. -/
inductive PyAnn where
  | empty
  | prim (t : PyType)
  | primOther
  | generic (origin : Option PyType)
  | txt (s : String)
deriving DecidableEq, Repr

/-- The source's `_infer_param_type_from_annotation`: JSON Schema type of an ann. -/
def inferParamType : PyAnn → String
  | .empty => "string"
  | .prim t => typeMapping t
  | .primOther => "string"
  | .generic (some t) => typeMapping t
  | .generic none => "string"
  | .txt s =>
    let l := strToLower s
    if containsSub "int" l then "integer"
    else if containsSub "float" l || containsSub "number" l then "number"
    else if containsSub "bool" l then "boolean"
    else if containsSub "list" l || containsSub "array" l then "array"
    else if containsSub "dict" l || containsSub "object" l then "object"
    else "string"

example : inferParamType (.txt "Int") = "integer" := by decide
example : inferParamType (.txt "MyPoint") = "integer" := by decide
example : inferParamType (.txt "Sequence") = "string" := by decide
example : inferParamType .empty = "string" := by decide

/-! ## Python callables and keyword binding -/

/-- One declared parameter of a Python function, as seen by `inspect.signature`:
its name, whether `param.default is inspect.Parameter.empty` is false, and
its annotation. -/
structure PyParam where
  name : String
  hasDefault : Bool
  ann : PyAnn

/-- A Python function: declared name, parameters in declaration order,
docstring, and a body consuming keyword-bound arguments. A body may raise,
modelled by `Except` carrying `str(e)` of the raised exception. -/
structure PyFunc where
  fname : String
  params : List PyParam
  doc : Option String
  body : List (String × JValue) → Except String JValue

/-- Python call `f(**args)`: `args` must be a mapping; a key not among the
declared parameter names raises `TypeError: ... unexpected keyword argument`;
a parameter with no default and no bound value raises
`TypeError: ... missing ... argument`; else the body runs on the bindings. -/
def callKw (f : PyFunc) (args : JValue) : Except String JValue :=
  match args with
  | .obj kvs =>
    match kvs.find? (fun a => !(f.params.any (fun p => p.name == a.1))) with
    | some a =>
      .error (f.fname ++ "() got an unexpected keyword argument \x27" ++ a.1 ++ "\x27")
    | none =>
      match f.params.find? (fun p => !p.hasDefault && !(kvs.any (fun a => a.1 == p.name))) with
      | some p =>
        .error (f.fname ++ "() missing 1 required positional argument: \x27" ++ p.name ++ "\x27")
      | none => f.body kvs
  | other =>
    .error (f.fname ++ "() argument after ** must be a mapping, not " ++ pyTypeName other)

/-! ## Tool Registry and registration decorator (`MCP.add`) -/

/-- A registered tool record: the `tool_info` dict built by the decorator. -/
structure ToolInfo where
  title : Option String
  description : Option String
  func : PyFunc
  required_params : List String
  properties : List (String × JValue)

/-- The server state: the `tools` dict (insertion-ordered), the `initialized`
flag, and the identity strings. -/
structure MCP where
  tools : List (String × ToolInfo)
  initialized : Bool
  server_name : String
  server_version : String

/-- Python dict assignment `d[k] = v`: replace in place when `k` exists
(keeping its position), append otherwise. -/
def dictInsert (kvs : List (String × ToolInfo)) (k : String) (v : ToolInfo) :
    List (String × ToolInfo) :=
  if kvs.any (fun p => p.1 == k) then
    kvs.map (fun p => if p.1 == k then (k, v) else p)
  else kvs ++ [(k, v)]

/-- `MCP.register_tool`: store `tool_info` under `tool_name`. -/
def MCP.register_tool (m : MCP) (tool_name : String) (tool_info : ToolInfo) : MCP :=
  { m with tools := dictInsert m.tools tool_name tool_info }

/-- `MCP.list_tools`: the registered names, in dict order. -/
def MCP.list_tools (m : MCP) : List String := m.tools.map (fun p => p.1)

/-- Python `line.split(':', 1)[1]`: everything after the first colon
(callers guarantee a colon is present; `""` totalizes the impossible case). -/
def afterFirstColon (s : String) : String :=
  match s.toList.dropWhile (fun c => c ≠ ':') with
  | [] => ""
  | _ :: rest => String.mk rest

/-- The docstring scan of the decorator body: first line starting with
`"<name>:"` or `"- <name>:"` wins (text after the colon, stripped); otherwise
a line containing `param <name>`/`parameter <name>` (case-insensitive) stops
the scan, contributing text after a colon when one exists. -/
def paramDescScan (name : String) (dflt : String) : List String → String
  | [] => dflt
  | l :: ls =>
    let line := l.trim
    if line.startsWith (name ++ ":") || line.startsWith ("- " ++ name ++ ":") then
      (afterFirstColon line).trim
    else if containsSub ("param " ++ name) (strToLower line)
        || containsSub ("parameter " ++ name) (strToLower line) then
      if line.contains ':' then (afterFirstColon line).trim else dflt
    else paramDescScan name dflt ls

/-- Parameter description extraction: `"Parameter <name>"` unless the
docstring scan finds a better line (`if func.__doc__:` is a truthiness test). -/
def paramDesc (name : String) (doc : Option String) : String :=
  match doc with
  | some d =>
    if d ≠ "" then paramDescScan name ("Parameter " ++ name) (d.trim.splitOn "\n")
    else "Parameter " ++ name
  | none => "Parameter " ++ name

/-- The decorator `MCP.add(tool_info_dict)` applied to `func`: collect the
required parameter names (no default, declaration order), infer each
parameter's schema entry, and register the record under `func.__name__`. -/
def MCP.addTool (m : MCP) (title : Option String) (descr : Option String) (func : PyFunc) :
    MCP :=
  let required_params := (func.params.filter (fun p => !p.hasDefault)).map (fun p => p.name)
  let properties := func.params.map (fun p =>
    (p.name, JValue.obj [("type", JValue.str (inferParamType p.ann)),
                         ("description", JValue.str (paramDesc p.name func.doc))]))
  m.register_tool func.fname
    { title := title, description := descr, func := func,
      required_params := required_params, properties := properties }

/-! ## Response Builder (`_success_response`, `_error_response`) -/

/-- `MCP._success_response`: `id` is added only when `request_id is not None`. -/
def MCP.successResponse (request_id : JValue) (result : JValue) : JValue :=
  JValue.obj ([("jsonrpc", JValue.str "2.0"), ("result", result)] ++
    (if request_id = JValue.null then [] else [("id", request_id)]))

/-- `MCP._error_response`: `data` is added only when truthy (`if data:`);
`id` only when `request_id is not None`. -/
def MCP.errorResponse (request_id : JValue) (code : Int) (message : String)
    (data : Option String) : JValue :=
  JValue.obj ([("jsonrpc", JValue.str "2.0"),
    ("error", JValue.obj ([("code", JValue.int code), ("message", JValue.str message)] ++
      (match data with
       | some d => if d ≠ "" then [("data", JValue.str d)] else []
       | none => [])))] ++
    (if request_id = JValue.null then [] else [("id", request_id)]))

/-- The `-32603` envelope built by the dispatcher's generic `except` clause. -/
def MCP.internalError (request_id : JValue) (msg : String) : JValue :=
  MCP.errorResponse request_id (-32603) "Internal error"
    (some ("An error occurred during tool execution: " ++ msg))

/-! ## Request Dispatcher (`MCP.run`) -/

/-- The `initialize` result: protocol version, capabilities, server identity. -/
def MCP.initializeResult (m : MCP) : JValue :=
  JValue.obj [("protocolVersion", JValue.str "2024-11-05"),
    ("capabilities", JValue.obj [("tools", JValue.obj [("listChanged", JValue.bool false)])]),
    ("serverInfo", JValue.obj [("name", JValue.str m.server_name),
                               ("version", JValue.str m.server_version)])]

/-- One `tools/list` entry: name, description (the stored value, `null` when
registered as `None`), and the input schema. -/
def MCP.toolSchema (p : String × ToolInfo) : JValue :=
  JValue.obj [("name", JValue.str p.1),
    ("description", match p.2.description with
      | some d => JValue.str d
      | none => JValue.null),
    ("inputSchema", JValue.obj [("type", JValue.str "object"),
      ("properties", JValue.obj p.2.properties),
      ("required", JValue.arr (p.2.required_params.map JValue.str))])]

/-- Python `self.tools.get(x)` for a JSON-valued key: string keys look up the
dict, unhashable keys (`list`/`dict`) raise `TypeError`, other hashable keys
miss a string-keyed dict. -/
def toolsGet (tools : List (String × ToolInfo)) : JValue → Except String (Option ToolInfo)
  | .str s => .ok ((tools.find? (fun p => p.1 == s)).map (fun p => p.2))
  | .arr _ => .error "unhashable type: \x27list\x27"
  | .obj _ => .error "unhashable type: \x27dict\x27"
  | _ => .ok none

/-- Python `p not in x` for a string `p` and JSON-valued `x`: key test on
dicts, membership on lists, substring test on strings, `TypeError` otherwise. -/
def pyNotIn (p : String) : JValue → Except String Bool
  | .obj kvs => .ok (!kvs.any (fun a => a.1 == p))
  | .arr xs => .ok (!xs.any (fun v => v == JValue.str p))
  | .str s => .ok (!containsSub p s)
  | other => .error ("argument of type \x27" ++ pyTypeName other ++ "\x27 is not iterable")

/-- `[p for p in required_params if p not in args]`, short-circuiting on a
raised `TypeError`. -/
def missingIn (required : List String) (args : JValue) : Except String (List String) :=
  match required with
  | [] => .ok []
  | p :: rest => do
    let b ← pyNotIn p args
    let ms ← missingIn rest args
    .ok (if b then p :: ms else ms)

/-- A raise inside the `try` block of `run`: the state at raise time, the
`request_id` local at raise time, and `str(e)`. -/
abbrev RunRaise := MCP × JValue × String

/-- The `tools/call` branch of `run` (core.py lines 287-338). -/
def MCP.toolsCallBody (m : MCP) (request_id params : JValue) :
    Except RunRaise (MCP × JValue) :=
  match params with
  | .obj pkvs =>
    let tool_name := pyDictGet pkvs "name"
    let tool_arguments := pyDictGetD pkvs "arguments" (JValue.obj [])
    if tool_name.truthy = false then
      .ok (m, MCP.errorResponse request_id (-32602) "Invalid params"
        (some "Missing tool name in tools/call"))
    else
      match toolsGet m.tools tool_name with
      | .error e => .error (m, request_id, e)
      | .ok none =>
        .ok (m, MCP.errorResponse request_id (-32601) "Method not found"
          (some ("Tool \x27" ++ pyStr tool_name ++ "\x27 not found")))
      | .ok (some tool_info) =>
        match missingIn tool_info.required_params tool_arguments with
        | .error e => .error (m, request_id, e)
        | .ok missing =>
          if missing ≠ [] then
            .ok (m, MCP.errorResponse request_id (-32602) "Invalid params"
              (some ("Missing required parameters: " ++ String.intercalate ", " missing)))
          else
            match callKw tool_info.func tool_arguments with
            | .error e => .error (m, request_id, e)
            | .ok result =>
              .ok (m, MCP.successResponse request_id
                (JValue.obj [("content", JValue.arr [JValue.obj
                  [("type", JValue.str "text"), ("text", JValue.str (pyStr result))]])]))
  | other =>
    .error (m, request_id,
      "\x27" ++ pyTypeName other ++ "\x27 object has no attribute \x27get\x27")

/-- The legacy direct-method branch of `run` (core.py lines 346-377); the
caller has already performed the auto-initialization of lines 342-344. -/
def MCP.legacyBody (m : MCP) (request_id method params : JValue) :
    Except RunRaise (MCP × JValue) :=
  match toolsGet m.tools method with
  | .error e => .error (m, request_id, e)
  | .ok none =>
    .ok (m, MCP.errorResponse request_id (-32601) "Method not found"
      (some ("Tool \x27" ++ pyStr method ++ "\x27 not found")))
  | .ok (some tool_info) =>
    match missingIn tool_info.required_params params with
    | .error e => .error (m, request_id, e)
    | .ok missing =>
      if missing ≠ [] then
        .ok (m, MCP.errorResponse request_id (-32602) "Invalid params"
          (some ("Missing required parameters: " ++ String.intercalate ", " missing)))
      else
        match callKw tool_info.func params with
        | .error e => .error (m, request_id, e)
        | .ok result => .ok (m, MCP.successResponse request_id result)

/-- The `try` block of `MCP.run` on an already-parsed request value. -/
def MCP.runBody (m : MCP) (request : JValue) : Except RunRaise (MCP × JValue) :=
  match request with
  | .obj kvs =>
    if pyDictGet kvs "jsonrpc" = JValue.str "2.0" then
      let request_id := pyDictGet kvs "id"
      let method := pyDictGet kvs "method"
      let params := pyDictGetD kvs "params" (JValue.obj [])
      if method.truthy = false then
        .ok (m, MCP.errorResponse request_id (-32600) "Invalid Request" (some "Missing method"))
      else if method = JValue.str "initialize" then
        .ok ({ m with initialized := true }, MCP.successResponse request_id m.initializeResult)
      else if method = JValue.str "initialized" ∨ method = JValue.str "notifications/initialized" then
        .ok (m, MCP.successResponse request_id (JValue.obj []))
      else if method = JValue.str "tools/list" then
        .ok (m, MCP.successResponse request_id
          (JValue.obj [("tools", JValue.arr (m.tools.map MCP.toolSchema))]))
      else if method = JValue.str "tools/call" then
        m.toolsCallBody request_id params
      else
        let m2 := if m.initialized then m else { m with initialized := true }
        m2.legacyBody request_id method params
    else
      .ok (m, MCP.errorResponse JValue.null (-32600) "Invalid Request"
        (some "Missing or invalid jsonrpc version"))
  | other =>
    .error (m, JValue.null,
      "\x27" ++ pyTypeName other ++ "\x27 object has no attribute \x27get\x27")

/-- `MCP.run` on an already-parsed request: the `try` body, with the generic
`except Exception` clause mapping any raise to a `-32603` envelope carrying
the `request_id` local at raise time. -/
def MCP.run (m : MCP) (request : JValue) : MCP × JValue :=
  match m.runBody request with
  | .ok r => r
  | .error (m9, rid, msg) => (m9, MCP.internalError rid msg)

/-! ## Observers on response envelopes -/

/-- The `id` carried by a response object (`null` when the key is absent). -/
def respId : JValue → JValue
  | .obj kvs => pyDictGet kvs "id"
  | _ => JValue.null

/-- Whether a response object carries an `id` key at all. -/
def respHasId : JValue → Bool
  | .obj kvs => kvs.any (fun p => p.1 == "id")
  | _ => false

/-- A field of the `error` object inside a response, as an `Option`. -/
def respErrField (resp : JValue) (k : String) : Option JValue :=
  match resp with
  | .obj kvs =>
    match lookupKey kvs "error" with
    | some (.obj ekvs) => lookupKey ekvs k
    | _ => none
  | _ => none

/-! ## Concrete tools used as test fixtures -/

/-- Body of `def add(x: int, y: int): return x + y`. -/
def addBody (kvs : List (String × JValue)) : Except String JValue :=
  match pyDictGet kvs "x", pyDictGet kvs "y" with
  | .int a, .int b => .ok (.int (a + b))
  | _, _ => .error "unsupported operand type(s) for +"

/-- The callable `add(x: int, y: int) -> int`. -/
def addFunc : PyFunc :=
  { fname := "add",
    params := [{ name := "x", hasDefault := false, ann := .prim .int },
               { name := "y", hasDefault := false, ann := .prim .int }],
    doc := none, body := addBody }

/-- A zero-parameter tool whose body always raises `ValueError`. -/
def failingFunc : PyFunc :=
  { fname := "failing_func", params := [], doc := none,
    body := fun _ => .error "Something went wrong!" }

/-- A fresh server (`MCP("Test Server", "1.0.0")`). -/
def freshServer : MCP :=
  { tools := [], initialized := false, server_name := "Test Server",
    server_version := "1.0.0" }

/-- The fresh server with `add` and `failing_func` registered. -/
def sampleServer : MCP :=
  (freshServer.addTool (some "Add") (some "Adds two numbers") addFunc).addTool
    (some "Failing") (some "Always raises") failingFunc

/-- Shorthand for a `tools/call` request envelope. -/
def toolsCallReq (rid : JValue) (name : JValue) (args : JValue) : JValue :=
  JValue.obj [("jsonrpc", JValue.str "2.0"), ("method", JValue.str "tools/call"),
    ("params", JValue.obj [("name", name), ("arguments", args)]), ("id", rid)]

/-- Shorthand for a legacy direct-method request envelope. -/
def legacyReq (rid : JValue) (method : JValue) (params : JValue) : JValue :=
  JValue.obj [("jsonrpc", JValue.str "2.0"), ("method", method),
    ("params", params), ("id", rid)]

example :
    (sampleServer.run (toolsCallReq (.int 1) (.str "add")
      (.obj [("x", .int 10), ("y", .int 25)]))).2 =
    MCP.successResponse (.int 1) (JValue.obj [("content", JValue.arr [JValue.obj
      [("type", JValue.str "text"), ("text", JValue.str "35")]])]) := by decide

example :
    (sampleServer.run (legacyReq (.int 9) (.str "add")
      (.obj [("x", .int 2), ("y", .int 3)]))).2 =
    MCP.successResponse (.int 9) (JValue.int 5) := by decide

example :
    (sampleServer.run (toolsCallReq (.int 1) (.str "failing_func") (.obj []))).2 =
    MCP.internalError (.int 1) "Something went wrong!" := by decide

example :
    (sampleServer.run (toolsCallReq (.int 1) (.str "add") (.obj [("x", .int 10)]))).2 =
    MCP.errorResponse (.int 1) (-32602) "Invalid params"
      (some "Missing required parameters: y") := by decide

example : (sampleServer.run (toolsCallReq (.int 1) (.str "add")
    (.obj [("x", .int 10), ("y", .int 25)]))).1.initialized = false := by decide

example : (sampleServer.run (legacyReq (.int 9) (.str "add")
    (.obj [("x", .int 2), ("y", .int 3)]))).1.initialized = true := by decide

/-! ## Auxiliary observers and spec-side definitions -/

/-- The state component of a `runBody` outcome (raises keep the state too). -/
def stateOf : Except RunRaise (MCP × JValue) → MCP
  | .ok r => r.1
  | .error e => e.1

/-- Whether a value is a well-formed response envelope (a `jsonrpc: "2.0"`
object carrying a `result` or an `error`). -/
def isEnvelope : JValue → Bool
  | .obj kvs =>
    (pyDictGet kvs "jsonrpc" == JValue.str "2.0")
      && (kvs.any (fun p => p.1 == "result") || kvs.any (fun p => p.1 == "error"))
  | _ => false

/-- The five protocol built-in method values handled before legacy dispatch. -/
def builtinMethods : List JValue :=
  [JValue.str "initialize", JValue.str "initialized",
   JValue.str "notifications/initialized", JValue.str "tools/list",
   JValue.str "tools/call"]

/-- The six JSON Schema type names the inference engine can produce. -/
def schemaTypes : List String :=
  ["string", "integer", "number", "boolean", "array", "object"]

/-- The claim's token table for textual annotations, in priority order. -/
def tokenRules : List (List String × String) :=
  [(["int"], "integer"), (["float", "number"], "number"), (["bool"], "boolean"),
   (["list", "array"], "array"), (["dict", "object"], "object")]

/-- Stated from the claim's words, for comparison with the source's function:
case-insensitive substring matching of the annotation text against
`tokenRules`, the first matching token wins, `"string"` as fallback. -/
def specTextualInfer (s : String) : String :=
  match tokenRules.find? (fun r => r.1.any (fun tok => containsSub tok (strToLower s))) with
  | some r => r.2
  | none => "string"

/-- The `tool_info` record the decorator builds for a callable (used to
state lookup results; definitionally what `MCP.addTool` registers). -/
def mkToolInfo (title descr : Option String) (f : PyFunc) : ToolInfo :=
  { title := title, description := descr, func := f,
    required_params := (f.params.filter (fun p => !p.hasDefault)).map (fun p => p.name),
    properties := f.params.map (fun p =>
      (p.name, JValue.obj [("type", JValue.str (inferParamType p.ann)),
                           ("description", JValue.str (paramDesc p.name f.doc))])) }

/-- A replacement record for re-registering `add` (fresh metadata). -/
def newAddInfo : ToolInfo :=
  { title := some "Add v2", description := some "Replacement add",
    func := addFunc, required_params := ["x", "y"],
    properties := [("x", JValue.obj [("type", JValue.str "integer")])] }

/-! ## Helper lemmas -/

theorem respId_success (rid res : JValue) : respId (MCP.successResponse rid res) = rid := by
  by_cases h : rid = JValue.null
  · simp [MCP.successResponse, respId, pyDictGet, h, List.find?]
  · simp [MCP.successResponse, respId, pyDictGet, h, List.find?]

theorem respHasId_success (rid res : JValue) :
    respHasId (MCP.successResponse rid res) = true ↔ rid ≠ JValue.null := by
  by_cases h : rid = JValue.null
  · simp [MCP.successResponse, respHasId, h, List.any]
  · simp [MCP.successResponse, respHasId, h, List.any]

theorem respId_error (rid : JValue) (c : Int) (msg : String) (d : Option String) :
    respId (MCP.errorResponse rid c msg d) = rid := by
  by_cases h : rid = JValue.null
  · simp [MCP.errorResponse, respId, pyDictGet, h, List.find?]
  · simp [MCP.errorResponse, respId, pyDictGet, h, List.find?]

theorem respHasId_error (rid : JValue) (c : Int) (msg : String) (d : Option String) :
    respHasId (MCP.errorResponse rid c msg d) = true ↔ rid ≠ JValue.null := by
  by_cases h : rid = JValue.null
  · simp [MCP.errorResponse, respHasId, h, List.any]
  · simp [MCP.errorResponse, respHasId, h, List.any]

theorem dictInsert_keys (kvs : List (String × ToolInfo)) (k : String) (v : ToolInfo)
    (h : kvs.any (fun p => p.1 == k) = true) :
    (dictInsert kvs k v).map (fun p => p.1) = kvs.map (fun p => p.1) := by
  simp only [dictInsert, h, if_true, List.map_map, List.map_inj_left, Function.comp]
  intro a _
  by_cases hp : a.1 = k
  · simp [hp]
  · simp [hp]

theorem dictInsert_find (kvs : List (String × ToolInfo)) (k : String) (v : ToolInfo)
    (h : kvs.any (fun p => p.1 == k) = true) :
    (dictInsert kvs k v).find? (fun p => p.1 == k) = some (k, v) := by
  simp only [dictInsert, h, if_true]
  induction kvs with
  | nil => simp at h
  | cons p rest ih =>
    simp only [List.any_cons, Bool.or_eq_true, beq_iff_eq] at h
    by_cases hp : p.1 = k
    · simp only [List.map_cons]
      rw [if_pos (by simp [hp])]
      exact List.find?_cons_of_pos _ (by simp)
    · have h9 : (rest.any fun p => p.1 == k) = true := by
        rcases h with h | h
        · exact absurd h hp
        · simpa using h
      simp only [List.map_cons]
      rw [if_neg (by simp [hp])]
      rw [List.find?_cons_of_neg _ (by simp [hp])]
      exact ih h9

theorem dictInsert_map_schema (kvs : List (String × ToolInfo)) (k : String) (v : ToolInfo)
    (h : kvs.any (fun p => p.1 == k) = true) :
    (dictInsert kvs k v).map MCP.toolSchema =
      kvs.map (fun p => if p.1 = k then MCP.toolSchema (k, v) else MCP.toolSchema p) := by
  simp only [dictInsert, h, if_true, List.map_map, List.map_inj_left, Function.comp]
  intro a _
  by_cases hp : a.1 = k
  · simp [hp]
  · simp [hp]

theorem missingIn_obj (required : List String) (kvs : List (String × JValue)) :
    missingIn required (JValue.obj kvs) =
      .ok (required.filter (fun p => !kvs.any (fun a => a.1 == p))) := by
  induction required with
  | nil => rfl
  | cons p rest ih =>
    simp only [missingIn, pyNotIn, ih, List.filter_cons]
    by_cases hb : kvs.any (fun a => a.1 == p) = true
    · simp [hb, Bind.bind, Except.bind]
    · simp only [Bool.not_eq_true] at hb
      simp [hb, Bind.bind, Except.bind]

theorem toolsCallBody_state (m : MCP) (rid params : JValue) :
    stateOf (m.toolsCallBody rid params) = m := by
  unfold MCP.toolsCallBody
  dsimp only
  split
  · split
    · rfl
    · split <;> first | rfl | (split <;> first | rfl | (split <;> first | rfl | (split <;> rfl)))
  · rfl

theorem legacyBody_state (m : MCP) (rid method params : JValue) :
    stateOf (m.legacyBody rid method params) = m := by
  unfold MCP.legacyBody
  split <;> first | rfl | (split <;> first | rfl | (split <;> first | rfl | (split <;> rfl)))

theorem toolsCallBody_raise (m : MCP) (rid params : JValue) (m9 : MCP) (rid9 : JValue)
    (msg : String) (h : m.toolsCallBody rid params = .error (m9, rid9, msg)) :
    m9 = m ∧ rid9 = rid := by
  unfold MCP.toolsCallBody at h
  dsimp only at h
  repeat' split at h
  all_goals (cases h; try exact ⟨rfl, rfl⟩)

theorem legacyBody_raise (m : MCP) (rid method params : JValue) (m9 : MCP) (rid9 : JValue)
    (msg : String) (h : m.legacyBody rid method params = .error (m9, rid9, msg)) :
    m9 = m ∧ rid9 = rid := by
  unfold MCP.legacyBody at h
  repeat' split at h
  all_goals (cases h; try exact ⟨rfl, rfl⟩)

/-- Every normal return of the `tools/call` branch is a success or error
envelope built with the given `request_id`. -/
theorem toolsCallBody_ok_shape (m : MCP) (rid params : JValue) (m9 : MCP) (resp : JValue)
    (h : m.toolsCallBody rid params = .ok (m9, resp)) :
    (∃ res, resp = MCP.successResponse rid res) ∨
    (∃ c msg d, resp = MCP.errorResponse rid c msg d) := by
  unfold MCP.toolsCallBody at h
  dsimp only at h
  repeat' split at h
  all_goals (cases h; try first
    | exact Or.inl ⟨_, rfl⟩
    | exact Or.inr ⟨_, _, _, rfl⟩)

theorem legacyBody_ok_shape (m : MCP) (rid method params : JValue) (m9 : MCP) (resp : JValue)
    (h : m.legacyBody rid method params = .ok (m9, resp)) :
    (∃ res, resp = MCP.successResponse rid res) ∨
    (∃ c msg d, resp = MCP.errorResponse rid c msg d) := by
  unfold MCP.legacyBody at h
  repeat' split at h
  all_goals (cases h; try first
    | exact Or.inl ⟨_, rfl⟩
    | exact Or.inr ⟨_, _, _, rfl⟩)

/-! ## Claim theorems -/

/-- Claim C7: in every error envelope built by `_error_response`, the `data` field
is included iff the supplied data value is truthy; a falsy-but-present value
(`None`, `""`) is dropped, and a truthy value appears unchanged under
`error.data`. -/
theorem C7_error_data_truthiness (rid : JValue) (code : Int) (msg : String)
    (data : Option String) :
    respErrField (MCP.errorResponse rid code msg data) "data" =
      (match data with
       | some d => if d ≠ "" then some (JValue.str d) else none
       | none => none) := by
  by_cases hrid : rid = JValue.null
  all_goals cases data with
  | none => simp [MCP.errorResponse, respErrField, lookupKey, hrid, List.find?]
  | some d =>
    by_cases hd : d = ""
    · simp [MCP.errorResponse, respErrField, lookupKey, hrid, hd, List.find?]
    · simp [MCP.errorResponse, respErrField, lookupKey, hrid, hd, List.find?]

/-- Claim C6: for textual forward-reference annotations the inferred type follows
case-insensitive substring matching against the tokens
int, float/number, bool, list/array, dict/object in that priority order
(first match wins); with no annotation, or when nothing matches, the result
is "string"; and inference always returns one of the six schema types. -/
theorem C6_textual_inference :
    (∀ s : String, inferParamType (.txt s) = specTextualInfer s)
    ∧ inferParamType .empty = "string"
    ∧ (∀ a : PyAnn, inferParamType a ∈ schemaTypes) := by
  refine ⟨?_, rfl, ?_⟩
  · intro s
    by_cases h1 : containsSub "int" (strToLower s)
    <;> by_cases h2 : containsSub "float" (strToLower s)
    <;> by_cases h3 : containsSub "number" (strToLower s)
    <;> by_cases h4 : containsSub "bool" (strToLower s)
    <;> by_cases h5 : containsSub "list" (strToLower s)
    <;> by_cases h6 : containsSub "array" (strToLower s)
    <;> by_cases h7 : containsSub "dict" (strToLower s)
    <;> by_cases h8 : containsSub "object" (strToLower s)
    <;> simp [specTextualInfer, tokenRules, inferParamType, List.find?,
          h1, h2, h3, h4, h5, h6, h7, h8]
  · intro a
    cases a with
    | empty => simp [inferParamType, schemaTypes]
    | prim t => cases t <;> simp [inferParamType, typeMapping, schemaTypes]
    | primOther => simp [inferParamType, schemaTypes]
    | generic o =>
      cases o with
      | none => simp [inferParamType, schemaTypes]
      | some t => cases t <;> simp [inferParamType, typeMapping, schemaTypes]
    | txt s =>
      simp only [inferParamType]
      repeat' split
      all_goals simp [schemaTypes]

/-- Claim C9: a `tools/call` whose params carry a falsy `name` value (empty string,
null, 0, false, ...) yields `-32602` "Invalid params" with data
"Missing tool name in tools/call", with the state unchanged; the conclusion
holds for every registry, so the registry is never consulted. -/
theorem C9_falsy_tool_name (m : MCP) (kvs pkvs : List (String × JValue))
    (hrpc : pyDictGet kvs "jsonrpc" = JValue.str "2.0")
    (hm : pyDictGet kvs "method" = JValue.str "tools/call")
    (hp : pyDictGetD kvs "params" (JValue.obj []) = JValue.obj pkvs)
    (hname : (pyDictGet pkvs "name").truthy = false) :
    m.run (JValue.obj kvs) =
      (m, MCP.errorResponse (pyDictGet kvs "id") (-32602) "Invalid params"
        (some "Missing tool name in tools/call")) := by
  have hbody : m.runBody (JValue.obj kvs) =
      .ok (m, MCP.errorResponse (pyDictGet kvs "id") (-32602) "Invalid params"
        (some "Missing tool name in tools/call")) := by
    unfold MCP.runBody
    dsimp only
    rw [if_pos hrpc, hm, hp]
    rw [if_neg (by decide), if_neg (by decide), if_neg (by decide), if_neg (by decide),
      if_pos rfl]
    unfold MCP.toolsCallBody
    dsimp only
    rw [if_pos hname]
  simp [MCP.run, hbody]

/-- Witness for C9: `tools/call` with `name: ""` on the sample server. -/
theorem C9_witness :
    pyDictGet [("jsonrpc", JValue.str "2.0"), ("method", JValue.str "tools/call"),
        ("params", JValue.obj [("name", JValue.str ""), ("arguments", JValue.obj [])]),
        ("id", JValue.int 7)] "jsonrpc" = JValue.str "2.0" ∧
    sampleServer.run (JValue.obj [("jsonrpc", JValue.str "2.0"),
        ("method", JValue.str "tools/call"),
        ("params", JValue.obj [("name", JValue.str ""), ("arguments", JValue.obj [])]),
        ("id", JValue.int 7)]) =
      (sampleServer, MCP.errorResponse (JValue.int 7) (-32602) "Invalid params"
        (some "Missing tool name in tools/call")) :=
  ⟨by decide, by
    have h := C9_falsy_tool_name sampleServer
      [("jsonrpc", JValue.str "2.0"), ("method", JValue.str "tools/call"),
       ("params", JValue.obj [("name", JValue.str ""), ("arguments", JValue.obj [])]),
       ("id", JValue.int 7)]
      [("name", JValue.str ""), ("arguments", JValue.obj [])]
      (by decide) (by decide) (by decide) (by decide)
    simpa using h⟩

/-- Claim C10: re-registering an existing name replaces the stored record in place:
the name list (hence the position and the count) is unchanged, lookup returns
the newest record, and the `tools/list` schemas are the old list with the
entries under that name replaced by the new record's schema. -/
theorem C10_reregistration (m : MCP) (name : String) (ti : ToolInfo)
    (h : (m.tools.any fun p => p.1 == name) = true) :
    ((m.register_tool name ti).list_tools = m.list_tools)
    ∧ ((m.register_tool name ti).tools.length = m.tools.length)
    ∧ (toolsGet (m.register_tool name ti).tools (JValue.str name) = .ok (some ti))
    ∧ ((m.register_tool name ti).tools.map MCP.toolSchema =
        m.tools.map (fun p =>
          if p.1 = name then MCP.toolSchema (name, ti) else MCP.toolSchema p)) := by
  refine ⟨?_, ?_, ?_, ?_⟩
  · simpa [MCP.register_tool, MCP.list_tools] using dictInsert_keys m.tools name ti h
  · have h9 := congrArg List.length (dictInsert_keys m.tools name ti h)
    simpa [MCP.register_tool] using h9
  · simp [MCP.register_tool, toolsGet, dictInsert_find m.tools name ti h]
  · simpa [MCP.register_tool] using dictInsert_map_schema m.tools name ti h

/-- Witness for C10: re-register `add` on the sample server with new
metadata. -/
theorem C10_witness :
    ((sampleServer.tools.any fun p => p.1 == "add") = true)
    ∧ (((sampleServer.register_tool "add" newAddInfo).list_tools = sampleServer.list_tools)
       ∧ ((sampleServer.register_tool "add" newAddInfo).tools.length =
           sampleServer.tools.length)
       ∧ (toolsGet (sampleServer.register_tool "add" newAddInfo).tools (JValue.str "add") =
           .ok (some newAddInfo))
       ∧ ((sampleServer.register_tool "add" newAddInfo).tools.map MCP.toolSchema =
           sampleServer.tools.map (fun p =>
             if p.1 = "add" then MCP.toolSchema ("add", newAddInfo)
             else MCP.toolSchema p))) :=
  ⟨by decide, C10_reregistration sampleServer "add" newAddInfo (by decide)⟩

theorem dictInsert_find_all (kvs : List (String × ToolInfo)) (k : String) (v : ToolInfo) :
    (dictInsert kvs k v).find? (fun p => p.1 == k) = some (k, v) := by
  by_cases h : (kvs.any fun p => p.1 == k) = true
  · exact dictInsert_find kvs k v h
  · unfold dictInsert
    rw [if_neg h]
    rw [List.find?_append]
    have h9 : kvs.find? (fun p => p.1 == k) = none := by
      rw [List.find?_eq_none]
      intro x hx hpx
      exact h (List.any_eq_true.mpr ⟨x, hx, hpx⟩)
    simp [h9, List.find?]

/-- Claim C3: calling `tools/call` on a tool registered by the decorator, with the
arguments omitting the subset S of the required parameters (those with no
default, in declared order): if S is non-empty the response is `-32602` whose
data joins exactly the names in S in declared order; if S is empty no
parameter error is produced and the tool body is invoked on the arguments. -/
theorem C3_required_params (m0 : MCP) (title descr : Option String) (f : PyFunc)
    (rid : JValue) (args : List (String × JValue)) (hname : f.fname ≠ "") :
    (((f.params.filter (fun p => !p.hasDefault)).map (fun p => p.name)).filter
        (fun p => !args.any (fun a => a.1 == p)) ≠ [] →
      (m0.addTool title descr f).run
          (toolsCallReq rid (JValue.str f.fname) (JValue.obj args)) =
        (m0.addTool title descr f, MCP.errorResponse rid (-32602) "Invalid params"
          (some ("Missing required parameters: " ++ String.intercalate ", "
            (((f.params.filter (fun p => !p.hasDefault)).map (fun p => p.name)).filter
              (fun p => !args.any (fun a => a.1 == p)))))))
    ∧ (((f.params.filter (fun p => !p.hasDefault)).map (fun p => p.name)).filter
        (fun p => !args.any (fun a => a.1 == p)) = [] →
      (m0.addTool title descr f).run
          (toolsCallReq rid (JValue.str f.fname) (JValue.obj args)) =
        (m0.addTool title descr f,
          match callKw f (JValue.obj args) with
          | .ok result => MCP.successResponse rid (JValue.obj [("content", JValue.arr
              [JValue.obj [("type", JValue.str "text"),
                           ("text", JValue.str (pyStr result))]])])
          | .error e => MCP.internalError rid e)) := by
  have hti : toolsGet (m0.addTool title descr f).tools (JValue.str f.fname) =
      .ok (some (mkToolInfo title descr f)) := by
    simp [MCP.addTool, MCP.register_tool, toolsGet, dictInsert_find_all, mkToolInfo]
  have hstep : (m0.addTool title descr f).runBody
      (toolsCallReq rid (JValue.str f.fname) (JValue.obj args)) =
      (m0.addTool title descr f).toolsCallBody rid
        (JValue.obj [("name", JValue.str f.fname), ("arguments", JValue.obj args)]) := by
    unfold MCP.runBody toolsCallReq
    dsimp only
    rw [if_pos (by simp [pyDictGet])]
    have hmeth : pyDictGet [("jsonrpc", JValue.str "2.0"),
        ("method", JValue.str "tools/call"),
        ("params", JValue.obj [("name", JValue.str f.fname), ("arguments", JValue.obj args)]),
        ("id", rid)] "method" = JValue.str "tools/call" := by simp [pyDictGet]
    rw [hmeth]
    rw [if_neg (by decide), if_neg (by decide), if_neg (by decide), if_neg (by decide),
      if_pos rfl]
    simp [pyDictGet, pyDictGetD]
  have hcb : (m0.addTool title descr f).toolsCallBody rid
      (JValue.obj [("name", JValue.str f.fname), ("arguments", JValue.obj args)]) =
      (if (((f.params.filter (fun p => !p.hasDefault)).map (fun p => p.name)).filter
          (fun p => !args.any (fun a => a.1 == p))) ≠ [] then
        .ok (m0.addTool title descr f, MCP.errorResponse rid (-32602) "Invalid params"
          (some ("Missing required parameters: " ++ String.intercalate ", "
            (((f.params.filter (fun p => !p.hasDefault)).map (fun p => p.name)).filter
              (fun p => !args.any (fun a => a.1 == p))))))
      else
        match callKw f (JValue.obj args) with
        | .error e => .error (m0.addTool title descr f, rid, e)
        | .ok result => .ok (m0.addTool title descr f, MCP.successResponse rid
            (JValue.obj [("content", JValue.arr [JValue.obj
              [("type", JValue.str "text"), ("text", JValue.str (pyStr result))]])]))) := by
    unfold MCP.toolsCallBody
    dsimp only
    have hn9 : pyDictGet [("name", JValue.str f.fname), ("arguments", JValue.obj args)]
        "name" = JValue.str f.fname := by simp [pyDictGet]
    have ha9 : pyDictGetD [("name", JValue.str f.fname), ("arguments", JValue.obj args)]
        "arguments" (JValue.obj []) = JValue.obj args := by simp [pyDictGetD]
    rw [hn9, ha9]
    rw [if_neg (by simp [JValue.truthy, hname])]
    rw [hti]
    dsimp only [mkToolInfo]
    rw [missingIn_obj]
  constructor
  · intro hS
    unfold MCP.run
    rw [hstep, hcb, if_pos hS]
  · intro hS
    unfold MCP.run
    rw [hstep, hcb, if_neg (by simp [hS])]
    rcases hck : callKw f (JValue.obj args) with e | result <;> simp [hck]

/-- Witness for C3: `tools/call` of `add` with only `x` supplied reports
`-32602` listing exactly `y`. -/
theorem C3_witness :
    (addFunc.fname ≠ "") ∧
    ((freshServer.addTool (some "Add") (some "Adds two numbers") addFunc).run
        (toolsCallReq (JValue.int 2) (JValue.str "add")
          (JValue.obj [("x", JValue.int 10)])) =
      (freshServer.addTool (some "Add") (some "Adds two numbers") addFunc,
        MCP.errorResponse (JValue.int 2) (-32602) "Invalid params"
          (some "Missing required parameters: y"))) :=
  ⟨by decide, by
    have h := (C3_required_params freshServer (some "Add") (some "Adds two numbers") addFunc
      (JValue.int 2) [("x", JValue.int 10)] (by decide)).1 (by decide)
    exact h⟩

theorem callKw_ok_no_missing (f : PyFunc) (args : List (String × JValue)) (r : JValue)
    (hok : callKw f (JValue.obj args) = .ok r) :
    ((f.params.filter (fun p => !p.hasDefault)).map (fun p => p.name)).filter
      (fun p => !args.any (fun a => a.1 == p)) = [] := by
  rw [List.filter_eq_nil_iff]
  intro x hx hbad
  rw [List.mem_map] at hx
  obtain ⟨p, hp, rfl⟩ := hx
  rw [List.mem_filter] at hp
  unfold callKw at hok
  dsimp only at hok
  rcases h1 : args.find? (fun a => !(f.params.any (fun p => p.name == a.1))) with _ | a
  · rw [h1] at hok
    rcases h2 : f.params.find?
        (fun p => !p.hasDefault && !(args.any (fun a => a.1 == p.name))) with _ | q
    · rw [List.find?_eq_none] at h2
      exact absurd (by simp [hp.2, hbad] : ((!p.hasDefault
        && !(args.any (fun a => a.1 == p.name))) = true)) (h2 p hp.1)
    · rw [h2] at hok
      cases hok
  · rw [h1] at hok
    cases hok

theorem runBody_toolsCallReq (m : MCP) (rid nm argv : JValue) :
    m.runBody (toolsCallReq rid nm argv) =
      m.toolsCallBody rid (JValue.obj [("name", nm), ("arguments", argv)]) := by
  unfold MCP.runBody toolsCallReq
  dsimp only
  rw [if_pos (by simp [pyDictGet])]
  have hmeth : pyDictGet [("jsonrpc", JValue.str "2.0"), ("method", JValue.str "tools/call"),
      ("params", JValue.obj [("name", nm), ("arguments", argv)]), ("id", rid)] "method" =
      JValue.str "tools/call" := by simp [pyDictGet]
  rw [hmeth]
  rw [if_neg (by decide), if_neg (by decide), if_neg (by decide), if_neg (by decide),
    if_pos rfl]
  simp [pyDictGet, pyDictGetD]

theorem toolsCallBody_found (m : MCP) (rid : JValue) (s : String)
    (args : List (String × JValue)) (ti : ToolInfo) (hname : s ≠ "")
    (hti : toolsGet m.tools (JValue.str s) = .ok (some ti)) :
    m.toolsCallBody rid
        (JValue.obj [("name", JValue.str s), ("arguments", JValue.obj args)]) =
      (if (ti.required_params.filter (fun p => !args.any (fun a => a.1 == p))) ≠ [] then
        .ok (m, MCP.errorResponse rid (-32602) "Invalid params"
          (some ("Missing required parameters: " ++ String.intercalate ", "
            (ti.required_params.filter (fun p => !args.any (fun a => a.1 == p))))))
      else
        match callKw ti.func (JValue.obj args) with
        | .error e => .error (m, rid, e)
        | .ok result => .ok (m, MCP.successResponse rid
            (JValue.obj [("content", JValue.arr [JValue.obj
              [("type", JValue.str "text"), ("text", JValue.str (pyStr result))]])]))) := by
  unfold MCP.toolsCallBody
  dsimp only
  have hn9 : pyDictGet [("name", JValue.str s), ("arguments", JValue.obj args)] "name" =
      JValue.str s := by simp [pyDictGet]
  have ha9 : pyDictGetD [("name", JValue.str s), ("arguments", JValue.obj args)] "arguments"
      (JValue.obj []) = JValue.obj args := by simp [pyDictGetD]
  rw [hn9, ha9, if_neg (by simp [JValue.truthy, hname]), hti]
  dsimp only
  rw [missingIn_obj]

theorem runBody_legacyReq (m : MCP) (rid mth argv : JValue)
    (ht : mth.truthy = true) (hnb : mth ∉ builtinMethods) :
    m.runBody (legacyReq rid mth argv) =
      (if m.initialized then m else { m with initialized := true }).legacyBody rid mth argv := by
  simp only [builtinMethods, List.mem_cons, List.not_mem_nil, or_false, not_or] at hnb
  obtain ⟨h1, h2, h3, h4, h5⟩ := hnb
  unfold MCP.runBody legacyReq
  dsimp only
  rw [if_pos (by simp [pyDictGet])]
  have hmeth : pyDictGet [("jsonrpc", JValue.str "2.0"), ("method", mth),
      ("params", argv), ("id", rid)] "method" = mth := by simp [pyDictGet]
  rw [hmeth]
  rw [if_neg (by simp [ht]), if_neg h1, if_neg (not_or.mpr ⟨h2, h3⟩), if_neg h4, if_neg h5]
  simp [pyDictGet, pyDictGetD]

theorem legacyBody_found (m : MCP) (rid : JValue) (s : String)
    (args : List (String × JValue)) (ti : ToolInfo)
    (hti : toolsGet m.tools (JValue.str s) = .ok (some ti)) :
    m.legacyBody rid (JValue.str s) (JValue.obj args) =
      (if (ti.required_params.filter (fun p => !args.any (fun a => a.1 == p))) ≠ [] then
        .ok (m, MCP.errorResponse rid (-32602) "Invalid params"
          (some ("Missing required parameters: " ++ String.intercalate ", "
            (ti.required_params.filter (fun p => !args.any (fun a => a.1 == p))))))
      else
        match callKw ti.func (JValue.obj args) with
        | .error e => .error (m, rid, e)
        | .ok result => .ok (m, MCP.successResponse rid result)) := by
  unfold MCP.legacyBody
  rw [hti]
  dsimp only
  rw [missingIn_obj]

/-- Claim C4: with the required-parameter check satisfied and the tool body
returning a value, `tools/call` wraps the raw result in a one-element text
`content` array rendered with `str(result)`, while the legacy direct-method
path returns the raw result with no `content` wrapper. -/
theorem C4_result_wrapping (m0 : MCP) (title descr : Option String) (f : PyFunc)
    (rid : JValue) (args : List (String × JValue)) (r : JValue)
    (hname : f.fname ≠ "") (hnb : JValue.str f.fname ∉ builtinMethods)
    (hok : callKw f (JValue.obj args) = .ok r) :
    ((m0.addTool title descr f).run
        (toolsCallReq rid (JValue.str f.fname) (JValue.obj args))).2 =
      MCP.successResponse rid (JValue.obj [("content", JValue.arr [JValue.obj
        [("type", JValue.str "text"), ("text", JValue.str (pyStr r))]])])
    ∧ ((m0.addTool title descr f).run
        (legacyReq rid (JValue.str f.fname) (JValue.obj args))).2 =
      MCP.successResponse rid r := by
  have hti : toolsGet (m0.addTool title descr f).tools (JValue.str f.fname) =
      .ok (some (mkToolInfo title descr f)) := by
    simp [MCP.addTool, MCP.register_tool, toolsGet, dictInsert_find_all, mkToolInfo]
  have hmiss : ((mkToolInfo title descr f).required_params).filter
      (fun p => !args.any (fun a => a.1 == p)) = [] := by
    simpa [mkToolInfo] using callKw_ok_no_missing f args r hok
  constructor
  · unfold MCP.run
    rw [runBody_toolsCallReq, toolsCallBody_found _ _ _ _ _ hname hti,
      if_neg (by simp [hmiss])]
    dsimp only [mkToolInfo]
    rw [hok]
  · unfold MCP.run
    rw [runBody_legacyReq _ _ _ _ (by simp [JValue.truthy, hname]) hnb]
    have htm : (if (m0.addTool title descr f).initialized then (m0.addTool title descr f)
        else { m0.addTool title descr f with initialized := true }).tools =
        (m0.addTool title descr f).tools := by split <;> rfl
    rw [legacyBody_found _ _ _ _ _ (htm ▸ hti), if_neg (by simp [hmiss])]
    dsimp only [mkToolInfo]
    rw [hok]

/-- Witness for C4: `add` via `tools/call` with x=10, y=25 gives content text
"35"; via the legacy path with x=2, y=3 gives raw result 5. -/
theorem C4_witness :
    (addFunc.fname ≠ "") ∧
    (((freshServer.addTool (some "Add") (some "Adds two numbers") addFunc).run
        (toolsCallReq (JValue.int 1) (JValue.str "add")
          (JValue.obj [("x", JValue.int 10), ("y", JValue.int 25)]))).2 =
      MCP.successResponse (JValue.int 1) (JValue.obj [("content", JValue.arr [JValue.obj
        [("type", JValue.str "text"), ("text", JValue.str "35")]])]))
    ∧ (((freshServer.addTool (some "Add") (some "Adds two numbers") addFunc).run
        (legacyReq (JValue.int 9) (JValue.str "add")
          (JValue.obj [("x", JValue.int 2), ("y", JValue.int 3)]))).2 =
      MCP.successResponse (JValue.int 9) (JValue.int 5)) :=
  ⟨by decide,
   (C4_result_wrapping freshServer (some "Add") (some "Adds two numbers") addFunc
     (JValue.int 1) [("x", JValue.int 10), ("y", JValue.int 25)] (JValue.int 35)
     (by decide) (by decide) rfl).1,
   (C4_result_wrapping freshServer (some "Add") (some "Adds two numbers") addFunc
     (JValue.int 9) [("x", JValue.int 2), ("y", JValue.int 3)] (JValue.int 5)
     (by decide) (by decide) rfl).2⟩

/-- Counterexample to C8 as stated: a legacy call whose params contain an
unknown key (`z`) but omit required parameters does produce `-32602`
"Invalid params", so "never -32602 when an unknown key is present" fails. -/
theorem C8_counterexample :
    (sampleServer.run (legacyReq (JValue.int 3) (JValue.str "add")
        (JValue.obj [("z", JValue.int 1)]))).2 =
      MCP.errorResponse (JValue.int 3) (-32602) "Invalid params"
        (some "Missing required parameters: x, y") := by decide

/-- Claim C8 amended: for a legacy call whose params contain all required
parameters and also a key not among the declared parameter names, no
`-32602` is produced; the keyword-binding `TypeError` raised at invocation is
caught by the generic handler and reported as `-32603` "Internal error" (the
extra argument is never filtered out before invocation). -/
theorem C8_extra_kwargs (m0 : MCP) (title descr : Option String) (f : PyFunc)
    (rid : JValue) (args : List (String × JValue)) (a : String × JValue)
    (hname : f.fname ≠ "") (hnb : JValue.str f.fname ∉ builtinMethods)
    (hreq : ((f.params.filter (fun p => !p.hasDefault)).map (fun p => p.name)).filter
        (fun p => !args.any (fun a => a.1 == p)) = [])
    (hextra : args.find? (fun a => !(f.params.any (fun p => p.name == a.1))) = some a) :
    ((m0.addTool title descr f).run
        (legacyReq rid (JValue.str f.fname) (JValue.obj args))).2 =
      MCP.internalError rid
        (f.fname ++ "() got an unexpected keyword argument \x27" ++ a.1 ++ "\x27") := by
  have hti : toolsGet (m0.addTool title descr f).tools (JValue.str f.fname) =
      .ok (some (mkToolInfo title descr f)) := by
    simp [MCP.addTool, MCP.register_tool, toolsGet, dictInsert_find_all, mkToolInfo]
  have hck : callKw f (JValue.obj args) =
      .error (f.fname ++ "() got an unexpected keyword argument \x27" ++ a.1 ++ "\x27") := by
    unfold callKw
    dsimp only
    rw [hextra]
  unfold MCP.run
  rw [runBody_legacyReq _ _ _ _ (by simp [JValue.truthy, hname]) hnb]
  have htm : (if (m0.addTool title descr f).initialized then (m0.addTool title descr f)
      else { m0.addTool title descr f with initialized := true }).tools =
      (m0.addTool title descr f).tools := by split <;> rfl
  rw [legacyBody_found _ _ _ _ _ (htm ▸ hti),
    if_neg (by simpa [mkToolInfo] using hreq)]
  dsimp only [mkToolInfo]
  rw [hck]

/-- Witness for C8 (amended): legacy `add` with x, y and extra z reports
`-32603` Internal error carrying the unexpected-keyword message. -/
theorem C8_witness :
    (addFunc.fname ≠ "") ∧
    (((freshServer.addTool (some "Add") (some "Adds two numbers") addFunc).run
        (legacyReq (JValue.int 4) (JValue.str "add")
          (JValue.obj [("x", JValue.int 2), ("y", JValue.int 3), ("z", JValue.int 9)]))).2 =
      MCP.internalError (JValue.int 4)
        "add() got an unexpected keyword argument \x27z\x27") :=
  ⟨by decide,
   C8_extra_kwargs freshServer (some "Add") (some "Adds two numbers") addFunc
     (JValue.int 4) [("x", JValue.int 2), ("y", JValue.int 3), ("z", JValue.int 9)]
     ("z", JValue.int 9) (by decide) (by decide) (by decide) rfl⟩

theorem run_state (m : MCP) (req : JValue) :
    (m.run req).1 = stateOf (m.runBody req) := by
  unfold MCP.run stateOf
  rcases h : m.runBody req with e | r
  · rcases e with ⟨m9, rid, msg⟩
    simp
  · simp

/-- Counterexample to C1 as stated: on the sample server (not initialized),
a `tools/call` request executes `add` (the success content envelope proves
the body ran) yet the state's `initialized` flag is still false afterwards. -/
theorem C1_counterexample :
    sampleServer.initialized = false
    ∧ ((sampleServer.run (toolsCallReq (JValue.int 1) (JValue.str "add")
        (JValue.obj [("x", JValue.int 10), ("y", JValue.int 25)]))).2 =
      MCP.successResponse (JValue.int 1) (JValue.obj [("content", JValue.arr [JValue.obj
        [("type", JValue.str "text"), ("text", JValue.str "35")]])]))
    ∧ ((sampleServer.run (toolsCallReq (JValue.int 1) (JValue.str "add")
        (JValue.obj [("x", JValue.int 10), ("y", JValue.int 25)]))).1.initialized
      = false) := by decide

/-- Claim C1 amended: implicit initialization happens only on the legacy
direct-method path: any request dispatched past the protocol built-ins
leaves the server initialized (the flag is set before tool lookup and
execution), while `tools/call` never modifies the server state at all. -/
theorem C1_auto_init_legacy_only (m : MCP) (kvs : List (String × JValue))
    (hrpc : pyDictGet kvs "jsonrpc" = JValue.str "2.0")
    (ht : (pyDictGet kvs "method").truthy = true) :
    ((pyDictGet kvs "method") ∉ builtinMethods →
      (m.run (JValue.obj kvs)).1.initialized = true)
    ∧ (pyDictGet kvs "method" = JValue.str "tools/call" →
      (m.run (JValue.obj kvs)).1 = m) := by
  constructor
  · intro hnb
    simp only [builtinMethods, List.mem_cons, List.not_mem_nil, or_false, not_or] at hnb
    obtain ⟨h1, h2, h3, h4, h5⟩ := hnb
    have hrb : m.runBody (JValue.obj kvs) =
        (if m.initialized then m else { m with initialized := true }).legacyBody
          (pyDictGet kvs "id") (pyDictGet kvs "method")
          (pyDictGetD kvs "params" (JValue.obj [])) := by
      unfold MCP.runBody
      dsimp only
      rw [if_pos hrpc, if_neg (by simp [ht]), if_neg h1, if_neg (not_or.mpr ⟨h2, h3⟩),
        if_neg h4, if_neg h5]
    rw [run_state, hrb, legacyBody_state]
    by_cases hI : m.initialized <;> simp [hI]
  · intro hm
    have hrb : m.runBody (JValue.obj kvs) =
        m.toolsCallBody (pyDictGet kvs "id") (pyDictGetD kvs "params" (JValue.obj [])) := by
      unfold MCP.runBody
      dsimp only
      rw [if_pos hrpc, hm]
      rw [if_neg (by decide), if_neg (by decide), if_neg (by decide), if_neg (by decide),
        if_pos rfl]
    rw [run_state, hrb, toolsCallBody_state]

/-- Witness for C1 (amended): a legacy `add` call on the sample server leaves
it initialized. -/
theorem C1_witness :
    (pyDictGet [("jsonrpc", JValue.str "2.0"), ("method", JValue.str "add"),
        ("params", JValue.obj [("x", JValue.int 2), ("y", JValue.int 3)]),
        ("id", JValue.int 9)] "jsonrpc" = JValue.str "2.0")
    ∧ ((pyDictGet [("jsonrpc", JValue.str "2.0"), ("method", JValue.str "add"),
        ("params", JValue.obj [("x", JValue.int 2), ("y", JValue.int 3)]),
        ("id", JValue.int 9)] "method").truthy = true)
    ∧ ((pyDictGet [("jsonrpc", JValue.str "2.0"), ("method", JValue.str "add"),
          ("params", JValue.obj [("x", JValue.int 2), ("y", JValue.int 3)]),
          ("id", JValue.int 9)] "method") ∉ builtinMethods →
        (sampleServer.run (JValue.obj [("jsonrpc", JValue.str "2.0"),
          ("method", JValue.str "add"),
          ("params", JValue.obj [("x", JValue.int 2), ("y", JValue.int 3)]),
          ("id", JValue.int 9)])).1.initialized = true) :=
  ⟨by decide, by decide,
   (C1_auto_init_legacy_only sampleServer
     [("jsonrpc", JValue.str "2.0"), ("method", JValue.str "add"),
      ("params", JValue.obj [("x", JValue.int 2), ("y", JValue.int 3)]),
      ("id", JValue.int 9)] (by decide) (by decide)).1⟩

theorem runBody_raise_id (m : MCP) (kvs : List (String × JValue))
    (hrpc : pyDictGet kvs "jsonrpc" = JValue.str "2.0")
    (m9 : MCP) (rid9 : JValue) (msg : String)
    (herr : m.runBody (JValue.obj kvs) = .error (m9, rid9, msg)) :
    rid9 = pyDictGet kvs "id" := by
  unfold MCP.runBody at herr
  dsimp only at herr
  rw [if_pos hrpc] at herr
  split at herr
  · cases herr
  · split at herr
    · cases herr
    · split at herr
      · cases herr
      · split at herr
        · cases herr
        · split at herr
          · exact (toolsCallBody_raise _ _ _ _ _ _ herr).2
          · exact (legacyBody_raise _ _ _ _ _ _ _ herr).2

theorem runBody_ok_uses_id (m : MCP) (kvs : List (String × JValue))
    (hrpc : pyDictGet kvs "jsonrpc" = JValue.str "2.0")
    (m9 : MCP) (resp : JValue)
    (h : m.runBody (JValue.obj kvs) = .ok (m9, resp)) :
    (∃ res, resp = MCP.successResponse (pyDictGet kvs "id") res)
    ∨ (∃ c msg d, resp = MCP.errorResponse (pyDictGet kvs "id") c msg d) := by
  unfold MCP.runBody at h
  dsimp only at h
  rw [if_pos hrpc] at h
  split at h
  · cases h; exact Or.inr ⟨_, _, _, rfl⟩
  · split at h
    · cases h; exact Or.inl ⟨_, rfl⟩
    · split at h
      · cases h; exact Or.inl ⟨_, rfl⟩
      · split at h
        · cases h; exact Or.inl ⟨_, rfl⟩
        · split at h
          · exact toolsCallBody_ok_shape _ _ _ _ _ h
          · exact legacyBody_ok_shape _ _ _ _ _ _ h

theorem run_uses_id (m : MCP) (kvs : List (String × JValue))
    (hrpc : pyDictGet kvs "jsonrpc" = JValue.str "2.0") :
    (∃ res, (m.run (JValue.obj kvs)).2 = MCP.successResponse (pyDictGet kvs "id") res)
    ∨ (∃ c msg d, (m.run (JValue.obj kvs)).2 =
        MCP.errorResponse (pyDictGet kvs "id") c msg d) := by
  rcases h : m.runBody (JValue.obj kvs) with ⟨⟨m8, rid8, msg⟩⟩ | ⟨m8, resp⟩
  · right
    have hid := runBody_raise_id m kvs hrpc m8 rid8 msg h
    refine ⟨-32603, "Internal error",
      some ("An error occurred during tool execution: " ++ msg), ?_⟩
    unfold MCP.run
    rw [h]
    dsimp only [MCP.internalError]
    rw [hid]
  · have h2 : (m.run (JValue.obj kvs)).2 = resp := by
      unfold MCP.run
      rw [h]
    rw [h2]
    exact runBody_ok_uses_id m kvs hrpc m8 resp h

theorem isEnvelope_success (rid res : JValue) :
    isEnvelope (MCP.successResponse rid res) = true := by
  by_cases h : rid = JValue.null <;>
    simp [MCP.successResponse, isEnvelope, pyDictGet, h, List.find?, List.any]

theorem isEnvelope_error (rid : JValue) (c : Int) (msg : String) (d : Option String) :
    isEnvelope (MCP.errorResponse rid c msg d) = true := by
  by_cases h : rid = JValue.null <;>
    simp [MCP.errorResponse, isEnvelope, pyDictGet, h, List.find?, List.any]

theorem runBody_ok_shape (m : MCP) (req : JValue) (m9 : MCP) (resp : JValue)
    (h : m.runBody req = .ok (m9, resp)) :
    (∃ rid res, resp = MCP.successResponse rid res)
    ∨ (∃ rid c msg d, resp = MCP.errorResponse rid c msg d) := by
  unfold MCP.runBody at h
  cases req with
  | null => cases h
  | bool b => cases h
  | int n => cases h
  | str s => cases h
  | arr xs => cases h
  | obj kvs =>
    dsimp only at h
    split at h
    · split at h
      · cases h; exact Or.inr ⟨_, _, _, _, rfl⟩
      · split at h
        · cases h; exact Or.inl ⟨_, _, rfl⟩
        · split at h
          · cases h; exact Or.inl ⟨_, _, rfl⟩
          · split at h
            · cases h; exact Or.inl ⟨_, _, rfl⟩
            · split at h
              · rcases toolsCallBody_ok_shape _ _ _ _ _ h with ⟨res, hres⟩ | ⟨c, ms, d, hres⟩
                · exact Or.inl ⟨_, _, hres⟩
                · exact Or.inr ⟨_, _, _, _, hres⟩
              · rcases legacyBody_ok_shape _ _ _ _ _ _ h with ⟨res, hres⟩ | ⟨c, ms, d, hres⟩
                · exact Or.inl ⟨_, _, hres⟩
                · exact Or.inr ⟨_, _, _, _, hres⟩
    · cases h; exact Or.inr ⟨_, _, _, _, rfl⟩

theorem run_total_envelope (m : MCP) (req : JValue) :
    isEnvelope (m.run req).2 = true := by
  rcases h : m.runBody req with ⟨⟨m8, rid8, msg⟩⟩ | ⟨m8, resp⟩
  · have h2 : (m.run req).2 = MCP.internalError rid8 msg := by
      unfold MCP.run
      rw [h]
    rw [h2]
    exact isEnvelope_error _ _ _ _
  · have h2 : (m.run req).2 = resp := by
      unfold MCP.run
      rw [h]
    rw [h2]
    rcases runBody_ok_shape m req m8 resp h with ⟨rid, res, hres⟩ | ⟨rid, c, ms, d, hres⟩
    · rw [hres]; exact isEnvelope_success _ _
    · rw [hres]; exact isEnvelope_error _ _ _ _

/-- Claim C2: `run` is total over already-parsed values (its output is always a
response envelope), and whenever the try-block raises on a parsed object
envelope (dispatch failure or a raise inside the invoked tool body), the
raise is converted to `-32603` "Internal error" whose data embeds the
original failure's message, preserving the id parsed before the failure. -/
theorem C2_exception_conversion (m : MCP) (kvs : List (String × JValue))
    (hrpc : pyDictGet kvs "jsonrpc" = JValue.str "2.0")
    (m9 : MCP) (rid9 : JValue) (msg : String)
    (herr : m.runBody (JValue.obj kvs) = .error (m9, rid9, msg)) :
    m.run (JValue.obj kvs) =
      (m9, MCP.errorResponse (pyDictGet kvs "id") (-32603) "Internal error"
        (some ("An error occurred during tool execution: " ++ msg)))
    ∧ (∀ (mm : MCP) (req : JValue), isEnvelope (mm.run req).2 = true) := by
  refine ⟨?_, run_total_envelope⟩
  have hid := runBody_raise_id m kvs hrpc m9 rid9 msg herr
  unfold MCP.run
  rw [herr]
  dsimp only [MCP.internalError]
  rw [hid]

/-- Witness for C2: `failing_func` raises `ValueError("Something went
wrong!")` inside `tools/call`; the response is the `-32603` envelope with the
message embedded in data and the request id preserved. -/
theorem C2_witness :
    (pyDictGet [("jsonrpc", JValue.str "2.0"), ("method", JValue.str "tools/call"),
        ("params", JValue.obj [("name", JValue.str "failing_func"),
          ("arguments", JValue.obj [])]), ("id", JValue.int 1)] "jsonrpc" =
      JValue.str "2.0")
    ∧ (sampleServer.run (JValue.obj [("jsonrpc", JValue.str "2.0"),
          ("method", JValue.str "tools/call"),
          ("params", JValue.obj [("name", JValue.str "failing_func"),
            ("arguments", JValue.obj [])]), ("id", JValue.int 1)]) =
        (sampleServer, MCP.errorResponse (JValue.int 1) (-32603) "Internal error"
          (some "An error occurred during tool execution: Something went wrong!"))
      ∧ (∀ (mm : MCP) (req : JValue), isEnvelope (mm.run req).2 = true)) :=
  ⟨by decide,
   C2_exception_conversion sampleServer
     [("jsonrpc", JValue.str "2.0"), ("method", JValue.str "tools/call"),
      ("params", JValue.obj [("name", JValue.str "failing_func"),
        ("arguments", JValue.obj [])]), ("id", JValue.int 1)]
     (by decide) sampleServer (JValue.int 1) "Something went wrong!" rfl⟩

/-- Counterexample to C5 as stated: the envelope
`{jsonrpc: "1.0", method: "x", id: 5}` parses successfully and carries id 5,
yet the `-32600` response omits the id key entirely (id is forced to null by
the jsonrpc validation step). -/
theorem C5_counterexample :
    (pyDictGet [("jsonrpc", JValue.str "1.0"), ("method", JValue.str "x"),
        ("id", JValue.int 5)] "id" = JValue.int 5)
    ∧ respHasId (freshServer.run (JValue.obj [("jsonrpc", JValue.str "1.0"),
        ("method", JValue.str "x"), ("id", JValue.int 5)])).2 = false := by decide

/-- Claim C5 amended: for every parsed object envelope whose `jsonrpc` field equals
"2.0", the response id equals the request id (whatever its type), and the id
key is present in the response iff the request id was neither absent nor
null; envelopes failing the jsonrpc check get a null id regardless. -/
theorem C5_id_echo (m : MCP) (kvs : List (String × JValue))
    (hrpc : pyDictGet kvs "jsonrpc" = JValue.str "2.0") :
    respId (m.run (JValue.obj kvs)).2 = pyDictGet kvs "id"
    ∧ (respHasId (m.run (JValue.obj kvs)).2 = true ↔
        pyDictGet kvs "id" ≠ JValue.null) := by
  rcases run_uses_id m kvs hrpc with ⟨res, hres⟩ | ⟨c, msg, d, hres⟩
  · rw [hres]
    exact ⟨respId_success _ _, respHasId_success _ _⟩
  · rw [hres]
    exact ⟨respId_error _ _ _ _, respHasId_error _ _ _ _⟩

/-- Witness for C5 (amended): a string-typed id is echoed on a `tools/list`
response. -/
theorem C5_witness :
    (pyDictGet [("jsonrpc", JValue.str "2.0"), ("method", JValue.str "tools/list"),
        ("id", JValue.str "abc")] "jsonrpc" = JValue.str "2.0")
    ∧ (respId (sampleServer.run (JValue.obj [("jsonrpc", JValue.str "2.0"),
          ("method", JValue.str "tools/list"), ("id", JValue.str "abc")])).2 =
        pyDictGet [("jsonrpc", JValue.str "2.0"), ("method", JValue.str "tools/list"),
          ("id", JValue.str "abc")] "id"
      ∧ (respHasId (sampleServer.run (JValue.obj [("jsonrpc", JValue.str "2.0"),
          ("method", JValue.str "tools/list"), ("id", JValue.str "abc")])).2 = true ↔
          pyDictGet [("jsonrpc", JValue.str "2.0"), ("method", JValue.str "tools/list"),
            ("id", JValue.str "abc")] "id" ≠ JValue.null)) :=
  ⟨by decide,
   C5_id_echo sampleServer
     [("jsonrpc", JValue.str "2.0"), ("method", JValue.str "tools/list"),
      ("id", JValue.str "abc")] (by decide)⟩
